import Mathlib

/-!
# Verification of the SparkETLPipeline filter-and-report runners

Shallow embedding of `src/etl/csv_runner.py` (`run_csv_etl`),
`src/etl/pandas_runner.py` (`run_pandas_etl`) and `src/etl/ingest.py`
(`ingest`).  A CSV file is modelled as the list of rows the `csv` module
yields (each row a list of cell strings); the filesystem content found at
the input path is `Option (List Row)` (`none` = missing file).  Side
effects on the output location are reified in an `OutputEffect` value, and
an uncaught Python exception is modelled as the `Except.error` branch of
the result.
-/

namespace SparkETL

/-- One CSV row, exactly as `csv.reader` yields it: a list of cell strings. -/
abbrev Row := List String

/-- The `statistics` sub-dictionary of a successful run
(`csv_runner.py` lines 110-114; `pandas_runner.py` additionally reports
`validated_count`, which the csv runner leaves absent). -/
structure Stats where
  initial_count : Nat
  transformed_count : Nat
  filtered_count : Nat
  validated_count : Option Nat
deriving Repr, DecidableEq

/-- The result dictionary returned by the runners.  Absent keys of the
Python dict are `none`: a failure dict `{success, error, timestamp}` has
`statistics`, `sample_rows` and `output_path` all `none`; a success dict
has `error = none`. -/
structure RunDict where
  success : Bool
  timestamp : String
  error : Option String
  statistics : Option Stats
  sample_rows : Option (List (List (String × String)))
  output_path : Option String
deriving Repr, DecidableEq

/-- What one run did to its output location:
nothing at all, only the output directory created (`os.makedirs`), or the
output file written with the given rows (first row = header, when present). -/
inductive OutputEffect where
  | noneCreated : OutputEffect
  | dirOnly : String → OutputEffect
  | wrote : String → List Row → OutputEffect
deriving Repr, DecidableEq

/-- The failure dictionary `{"success": False, "error": e, "timestamp": ts}`
built at `csv_runner.py` lines 36-40, 73-77 and 122-128. -/
def failDict (e ts : String) : RunDict :=
  { success := false, timestamp := ts, error := some e,
    statistics := none, sample_rows := none, output_path := none }

/-- Python `str.strip()` with no argument: the string with leading and
trailing whitespace removed. -/
def pyStrip (s : String) : String :=
  String.mk
    (((s.toList.dropWhile Char.isWhitespace).reverse.dropWhile
        Char.isWhitespace).reverse)

/-- The acceptance test of `csv_runner.py` line 84:
`imageid_index < len(row) and row[imageid_index].strip()` — the row index
must be in range and the cell, stripped of surrounding whitespace, must be
a non-empty (truthy) string. -/
def accepts (idx : Nat) (row : Row) : Bool :=
  decide (idx < row.length) && !(pyStrip (row.getD idx "") == "")

/-- The sample-row dictionary built at `csv_runner.py` lines 90-96:
`sample_row[col] = row[i] if i < len(row) else ""` for each header column,
modelled as an association list in header (= Python dict insertion) order. -/
def sampleRow (header row : Row) : List (String × String) :=
  header.enum.map (fun q => (q.2, row.getD q.1 ""))

/-- The mutable state of the row loop of `csv_runner.py` lines 56-99. -/
structure LoopState where
  initial_count : Nat
  transformed_count : Nat
  filtered_count : Nat
  sample_rows : List (List (String × String))
  written : List Row
deriving Repr, DecidableEq

/-- The row loop of `csv_runner.py` lines 80-98: count every row, write and
count accepted rows (collecting the first five into the sample), count
rejected rows. -/
def processRows (idx : Nat) (header : Row) : List Row → LoopState → LoopState
  | [], st => st
  | row :: rest, st =>
    let st1 := { st with initial_count := st.initial_count + 1 }
    if accepts idx row then
      let st2 := { st1 with
        written := st1.written ++ [row]
        transformed_count := st1.transformed_count + 1 }
      let st3 := if st2.transformed_count ≤ 5
        then { st2 with sample_rows := st2.sample_rows ++ [sampleRow header row] }
        else st2
      processRows idx header rest st3
    else
      processRows idx header rest { st1 with filtered_count := st1.filtered_count + 1 }

/-- `os.path.dirname` for POSIX paths: the part before the final slash,
with trailing slashes stripped unless the result is all slashes; `""` when
the path holds no slash. -/
def dirname (p : String) : String :=
  let cs := p.toList
  match cs.reverse.findIdx? (fun c => c == '/') with
  | none => ""
  | some k =>
    let head := cs.take (cs.length - k)
    if head.all (fun c => c == '/') then String.mk head
    else String.mk ((head.reverse.dropWhile (fun c => c == '/')).reverse)

/-- `os.makedirs(path, exist_ok=True)` on a writable filesystem succeeds
iff the path is non-empty; CPython raises `FileNotFoundError` on `""`
(which is `os.path.dirname` of a bare filename). -/
def makedirsOk (p : String) : Bool := !(p == "")

/-- The directory `run_csv_etl` creates with `os.makedirs` (lines 42-48):
the timestamped default directory, or the dirname of an explicit output
path. -/
def csvOutDir (now : String) : Option String → String
  | none => "data/output/csv_" ++ now
  | some p => dirname p

/-- The output file path `run_csv_etl` writes to (lines 42-48). -/
def resolveCsvOutput (now : String) : Option String → String
  | none => "data/output/csv_" ++ now ++ "/processed_data.csv"
  | some p => p

/-- The string of the uncaught `FileNotFoundError` that `os.makedirs("")`
raises. -/
def makedirsError : String := "No such file or directory: "

/-- Shallow embedding of `run_csv_etl` (`csv_runner.py` lines 18-128).

Parameters: `now` the clock reading (used for the timestamp fields and the
default output directory name), `input_path` the resolved input path
(default `data/labels.csv` already applied), `content` the file found
there (`none` = missing), `output_path` the optional explicit output path,
and `exc` an oracle for an I/O exception raised at the first operation
inside the `try` block (opening the files); all theorems about later
behaviour set `exc = none`, i.e. no spurious I/O failure.

The first component is the returned dict, or `Except.error` for an
exception that escapes to the caller; note that `os.makedirs` at lines
42-48 runs *before* the `try` of line 54, so its failure is uncaught.
After the schema check fails the early `return` closes the output file
with the header row already written (line 67 precedes line 70).  The copy
to `data/output/latest_processed.csv` (line 101) does not change the
run's own output location and is not reified. -/
def run_csv_etl (now input_path : String) (content : Option (List Row))
    (output_path : Option String) (exc : Option String) :
    Except String RunDict × OutputEffect :=
  match content with
  | none =>
    (.ok (failDict ("Input file " ++ input_path ++ " does not exist") now), .noneCreated)
  | some fileRows =>
    let outDir := csvOutDir now output_path
    let outp := resolveCsvOutput now output_path
    if makedirsOk outDir then
      match exc with
      | some e => (.ok (failDict e now), .dirOnly outDir)
      | none =>
        match fileRows with
        | [] =>
          -- `next(reader)` raises StopIteration (whose str() is ""),
          -- caught at line 122; the opened output file stays empty.
          (.ok (failDict "" now), .wrote outp [])
        | header :: rows =>
          if header.contains "ImageID" then
            let idx := header.indexOf "ImageID"
            let st := processRows idx header rows
              { initial_count := 0, transformed_count := 0, filtered_count := 0,
                sample_rows := [], written := [] }
            (.ok { success := true, timestamp := now, error := none,
                   statistics := some
                     { initial_count := st.initial_count,
                       transformed_count := st.transformed_count,
                       filtered_count := st.filtered_count,
                       validated_count := none },
                   sample_rows := some st.sample_rows,
                   output_path := some outp },
             .wrote outp (header :: st.written))
          else
            (.ok (failDict "CSV file does not contain an 'ImageID' column" now),
             .wrote outp [header])
    else
      (.error makedirsError, .noneCreated)

/-- The default NA tokens of `pandas.read_csv`: a cell holding one of these
strings (in particular the empty cell) is parsed as missing (`NaN`). -/
def pandasNaTokens : List String :=
  ["", "#N/A", "#N/A N/A", "#NA", "-1.#IND", "-1.#QNAN", "-NaN", "-nan",
   "1.#IND", "1.#QNAN", "<NA>", "N/A", "NA", "NULL", "NaN", "None",
   "n/a", "nan", "null"]

/-- Whether the cell at column `idx` of a `pandas.read_csv` data frame is
missing (`NaN`): the source row is too short, or the cell text is one of
the default NA tokens.  `df.dropna(subset=['ImageID'])` at
`pandas_runner.py` line 62 drops exactly the rows where this holds for the
ImageID column. -/
def pandasIsNull (idx : Nat) (row : Row) : Bool :=
  match row.get? idx with
  | none => true
  | some v => pandasNaTokens.contains v

/-- Whether the cell at column `idx` of a Spark CSV data frame is `null`:
the source row is too short (PERMISSIVE mode pads with nulls), or the cell
is the empty string (Spark's default `nullValue`).
`df.filter(col("ImageID").isNotNull())` at `ingest.py` line 72 keeps
exactly the rows where this is false for the ImageID column. -/
def sparkIsNull (idx : Nat) (row : Row) : Bool :=
  match row.get? idx with
  | none => true
  | some v => v == ""

/-- The output path `run_pandas_etl` writes to (`pandas_runner.py`
lines 41-43). -/
def resolvePandasOutput (now : String) : Option String → String
  | none => "data/output/parquet_" ++ now
  | some p => p

/-- Shallow embedding of `run_pandas_etl` (`pandas_runner.py` lines 17-108).

Same conventions as `run_csv_etl`.  `pd.read_csv` runs with its default
`skip_blank_lines=True`: fully blank lines — rows the `csv` module would
yield as `[]` — are dropped wherever they occur, before the header is
taken and before any data row is counted in `len(df)`; a file of only
blank lines raises `EmptyDataError`.  The parquet round trip
(`to_parquet` / `read_parquet`, lines 70-75) is modelled as the identity
on the kept rows, so `validated_count = transformed_count` and the sample
comes from the kept rows; a row wider than the header makes
`pd.read_csv` fail (`Error tokenizing data`), caught by the `except` of
line 101. -/
def run_pandas_etl (now input_path : String) (content : Option (List Row))
    (output_path : Option String) :
    Except String RunDict × OutputEffect :=
  match content with
  | none =>
    (.ok (failDict ("Input file " ++ input_path ++ " does not exist") now), .noneCreated)
  | some fileRows =>
    let outp := resolvePandasOutput now output_path
    let outDir := dirname outp
    if makedirsOk outDir then
      match fileRows.filter (fun r => !(r.isEmpty)) with
      | [] => (.ok (failDict "No columns to parse from file" now), .dirOnly outDir)
      | header :: rows =>
        if rows.any (fun r => decide (header.length < r.length)) then
          (.ok (failDict "Error tokenizing data." now), .dirOnly outDir)
        else if header.contains "ImageID" then
          let idx := header.indexOf "ImageID"
          let kept := rows.filter (fun r => !(pandasIsNull idx r))
          (.ok { success := true, timestamp := now, error := none,
                 statistics := some
                   { initial_count := rows.length,
                     transformed_count := kept.length,
                     filtered_count := rows.length - kept.length,
                     validated_count := some kept.length },
                 sample_rows := some ((kept.take 5).map (sampleRow header)),
                 output_path := some outp },
           .wrote outp (header :: kept))
        else
          (.ok (failDict "['ImageID'] not found in axis" now), .dirOnly outDir)
    else
      (.error makedirsError, .noneCreated)

/-- The output path `ingest` writes to (`ingest.py` lines 49-52). -/
def resolveIngestOutput : Option String → String
  | none => "data/output/parquet"
  | some p => p

/-- Shallow embedding of `ingest` (`ingest.py` lines 35-91).

`ingest` raises on every failure (`FileNotFoundError` before any output
activity when the input is missing, and the `except` of line 88 re-raises
Spark errors), so the happy result is `.ok` with the output path (the
Spark session handle carries no information for these claims).  Spark's
CSV reader (univocity, `skipEmptyLines` on by default, no user option)
drops fully blank lines — rows the `csv` module would yield as `[]` —
wherever they occur, before the header is taken and before `df.count()`
sees any row.  Schema inference fails on an empty (or all-blank) file,
and filtering on a column absent from the header raises an analysis
error. -/
def ingest (input_path : String) (content : Option (List Row))
    (output_path : Option String) :
    Except String String × OutputEffect :=
  match content with
  | none =>
    (.error ("The input file " ++ input_path ++ " does not exist."), .noneCreated)
  | some fileRows =>
    let outp := resolveIngestOutput output_path
    let outDir := dirname outp
    if makedirsOk outDir then
      match fileRows.filter (fun r => !(r.isEmpty)) with
      | [] =>
        (.error "Unable to infer schema for CSV. It must be specified manually.",
         .dirOnly outDir)
      | header :: rows =>
        if header.contains "ImageID" then
          let idx := header.indexOf "ImageID"
          let kept := rows.filter (fun r => !(sparkIsNull idx r))
          (.ok outp, .wrote outp (header :: kept))
        else
          (.error "Column ImageID does not exist", .dirOnly outDir)
    else
      (.error makedirsError, .noneCreated)

/-! ## Helper lemmas -/

/-- Splitting `5 - t` off a cons, for the sample-prefix bookkeeping. -/
theorem take_five_sub_cons {α : Type} (t : Nat) (ht : t < 5) (a : α) (l : List α) :
    (a :: l).take (5 - t) = a :: l.take (5 - (t + 1)) := by
  have h : 5 - t = (5 - (t + 1)) + 1 := by omega
  rw [h, List.take_succ_cons]

/-- A filter and its complement partition a list. -/
theorem length_filter_add_length_filter_neg {α : Type} (p : α → Bool) (l : List α) :
    (l.filter p).length + (l.filter (fun a => !(p a))).length = l.length := by
  induction l with
  | nil => rfl
  | cons a l ih =>
    by_cases h : p a <;> simp only [List.filter_cons, h] <;> simp <;> omega

/-- Closed form of the row loop: starting from any state, `processRows`
adds the row count to `initial_count`, appends the accepted rows to
`written` and counts them in `transformed_count`, counts the rejected
rows in `filtered_count`, and appends the first `5 - transformed_count`
accepted rows (rendered by `sampleRow`) to the sample. -/
theorem processRows_eq (idx : Nat) (header : Row) (rows : List Row) (st : LoopState) :
    processRows idx header rows st =
      { initial_count := st.initial_count + rows.length
        transformed_count := st.transformed_count + (rows.filter (accepts idx)).length
        filtered_count := st.filtered_count + (rows.filter (fun r => !(accepts idx r))).length
        sample_rows := st.sample_rows ++
          (((rows.filter (accepts idx)).take (5 - st.transformed_count)).map (sampleRow header))
        written := st.written ++ rows.filter (accepts idx) } := by
  induction rows generalizing st with
  | nil => simp [processRows]
  | cons row rest ih =>
    by_cases h : accepts idx row
    · have hcons : List.filter (accepts idx) (row :: rest) =
          row :: List.filter (accepts idx) rest := by
        simp [List.filter_cons, h]
      have hcons2 : List.filter (fun r => !(accepts idx r)) (row :: rest) =
          List.filter (fun r => !(accepts idx r)) rest := by
        simp [List.filter_cons, h]
      by_cases h5 : st.transformed_count + 1 ≤ 5
      · have step : processRows idx header (row :: rest) st =
            processRows idx header rest
              { initial_count := st.initial_count + 1
                transformed_count := st.transformed_count + 1
                filtered_count := st.filtered_count
                sample_rows := st.sample_rows ++ [sampleRow header row]
                written := st.written ++ [row] } := by
          simp [processRows, h, h5]
        rw [step, ih]
        simp only [LoopState.mk.injEq, hcons, hcons2]
        refine ⟨by simp; omega, by simp; omega, by trivial, ?_, by simp⟩
        rw [take_five_sub_cons st.transformed_count (by omega) row]
        simp
      · have step : processRows idx header (row :: rest) st =
            processRows idx header rest
              { initial_count := st.initial_count + 1
                transformed_count := st.transformed_count + 1
                filtered_count := st.filtered_count
                sample_rows := st.sample_rows
                written := st.written ++ [row] } := by
          simp [processRows, h, h5]
        rw [step, ih]
        simp only [LoopState.mk.injEq, hcons, hcons2]
        have hz : 5 - st.transformed_count = 0 := by omega
        have hz1 : 5 - (st.transformed_count + 1) = 0 := by omega
        refine ⟨by simp; omega, by simp; omega, by trivial, by simp [hz, hz1], by simp⟩
    · have hcons : List.filter (accepts idx) (row :: rest) =
          List.filter (accepts idx) rest := by
        simp [List.filter_cons, h]
      have hcons2 : List.filter (fun r => !(accepts idx r)) (row :: rest) =
          row :: List.filter (fun r => !(accepts idx r)) rest := by
        simp [List.filter_cons, h]
      have step : processRows idx header (row :: rest) st =
          processRows idx header rest
            { initial_count := st.initial_count + 1
              transformed_count := st.transformed_count
              filtered_count := st.filtered_count + 1
              sample_rows := st.sample_rows
              written := st.written } := by
        simp [processRows, h]
      rw [step, ih]
      simp only [LoopState.mk.injEq, hcons, hcons2]
      refine ⟨by simp; omega, by trivial, by simp; omega, by trivial, by trivial⟩

/-- The success dictionary of `run_csv_etl` on header `header`, data rows
`rows` and resolved output path `outp`, in closed form. -/
def csvSuccessDict (now : String) (header : Row) (rows : List Row)
    (outp : String) : RunDict :=
  { success := true
    timestamp := now
    error := none
    statistics := some
      { initial_count := rows.length
        transformed_count := (rows.filter (accepts (header.indexOf "ImageID"))).length
        filtered_count :=
          (rows.filter (fun r => !(accepts (header.indexOf "ImageID") r))).length
        validated_count := none }
    sample_rows := some
      (((rows.filter (accepts (header.indexOf "ImageID"))).take 5).map (sampleRow header))
    output_path := some outp }

/-- Characterization of a successful csv run: with the input present, the
key column in the header, no I/O exception and a creatable output
directory, `run_csv_etl` returns the success dictionary in closed form and
writes the header followed by exactly the accepted rows. -/
theorem run_csv_etl_ok (now p : String) (header : Row) (rows : List Row)
    (out : Option String) (hdr : header.contains "ImageID" = true)
    (hout : makedirsOk (csvOutDir now out) = true) :
    run_csv_etl now p (some (header :: rows)) out none =
      (.ok (csvSuccessDict now header rows (resolveCsvOutput now out)),
       .wrote (resolveCsvOutput now out)
         (header :: rows.filter (accepts (header.indexOf "ImageID")))) := by
  unfold run_csv_etl csvSuccessDict
  have hdr' : "ImageID" ∈ header := by simpa using hdr
  simp [hout, hdr', hdr, processRows_eq]

/-- Totality inside the caught region: whenever the output directory is
creatable, `run_csv_etl` returns a dictionary (no exception escapes). -/
theorem run_csv_etl_total (now p : String) (content : Option (List Row))
    (out : Option String) (exc : Option String)
    (hout : makedirsOk (csvOutDir now out) = true) :
    ∃ d, (run_csv_etl now p content out exc).1 = .ok d := by
  cases content with
  | none =>
    exact ⟨failDict ("Input file " ++ p ++ " does not exist") now,
      by simp [run_csv_etl]⟩
  | some fileRows =>
    cases exc with
    | some e => exact ⟨failDict e now, by simp [run_csv_etl, hout]⟩
    | none =>
      cases fileRows with
      | nil => exact ⟨failDict "" now, by simp [run_csv_etl, hout]⟩
      | cons header rows =>
        by_cases hdr : "ImageID" ∈ header
        · exact ⟨_, by
            rw [run_csv_etl_ok now p header rows out (by simpa using hdr) hout]⟩
        · exact ⟨failDict "CSV file does not contain an 'ImageID' column" now,
            by simp [run_csv_etl, hout, hdr]⟩

/-- Every dictionary `run_csv_etl` returns is either a failure dictionary
or the closed-form success dictionary. -/
theorem run_csv_etl_dict_cases (now p : String) (content : Option (List Row))
    (out : Option String) (exc : Option String) (d : RunDict)
    (hrun : (run_csv_etl now p content out exc).1 = .ok d) :
    (∃ e, d = failDict e now) ∨
    (∃ header rows, content = some (header :: rows) ∧
      d = csvSuccessDict now header rows (resolveCsvOutput now out)) := by
  cases content with
  | none =>
    left
    exact ⟨_, by simpa [run_csv_etl] using hrun.symm⟩
  | some fileRows =>
    by_cases hmk : makedirsOk (csvOutDir now out) = true
    · cases exc with
      | some e =>
        left
        exact ⟨e, by simpa [run_csv_etl, hmk] using hrun.symm⟩
      | none =>
        cases fileRows with
        | nil =>
          left
          exact ⟨"", by simpa [run_csv_etl, hmk] using hrun.symm⟩
        | cons header rows =>
          by_cases hdr : "ImageID" ∈ header
          · right
            refine ⟨header, rows, rfl, ?_⟩
            rw [run_csv_etl_ok now p header rows out (by simpa using hdr) hmk] at hrun
            simpa using hrun.symm
          · left
            exact ⟨"CSV file does not contain an 'ImageID' column",
              by simpa [run_csv_etl, hmk, hdr] using hrun.symm⟩
    · exfalso
      simp [run_csv_etl, hmk] at hrun

/-- C1: In `run_csv_etl`, a data row is accepted — written to the output
and counted in `transformed_count` — iff the ImageID index is strictly
below the row's length and the cell there, trimmed of surrounding
whitespace, is non-empty; every other row is rejected and counted in
`filtered_count`. -/
theorem C1_accept_iff_keyfield_present (now p : String) (header : Row)
    (rows : List Row) (out : Option String)
    (hdr : header.contains "ImageID" = true)
    (hout : makedirsOk (csvOutDir now out) = true) :
    (run_csv_etl now p (some (header :: rows)) out none).2 =
      .wrote (resolveCsvOutput now out)
        (header :: rows.filter (fun row =>
          decide (header.indexOf "ImageID" < row.length) &&
          !(pyStrip (row.getD (header.indexOf "ImageID") "") == ""))) ∧
    ∃ d, (run_csv_etl now p (some (header :: rows)) out none).1 = .ok d ∧
      d.statistics = some
        { initial_count := rows.length
          transformed_count := (rows.filter (fun row =>
            decide (header.indexOf "ImageID" < row.length) &&
            !(pyStrip (row.getD (header.indexOf "ImageID") "") == ""))).length
          filtered_count := (rows.filter (fun row =>
            !(decide (header.indexOf "ImageID" < row.length) &&
              !(pyStrip (row.getD (header.indexOf "ImageID") "") == "")))).length
          validated_count := none } := by
  rw [run_csv_etl_ok now p header rows out hdr hout]
  exact ⟨rfl, _, rfl, rfl⟩

/-- C1 witness: the theorem applied to a concrete three-row input. -/
theorem C1_accept_iff_keyfield_present_witness :
    (["ImageID", "X"] : Row).contains "ImageID" = true ∧
    makedirsOk (csvOutDir "T" (some "d/o.csv")) = true ∧
    (run_csv_etl "T" "in.csv" (some [["ImageID", "X"], ["a", "b"], [" "], []])
        (some "d/o.csv") none).2 =
      .wrote (resolveCsvOutput "T" (some "d/o.csv"))
        (["ImageID", "X"] :: ([["a", "b"], [" "], []] : List Row).filter (fun row =>
          decide ((["ImageID", "X"] : Row).indexOf "ImageID" < row.length) &&
          !(pyStrip (row.getD ((["ImageID", "X"] : Row).indexOf "ImageID") "") == ""))) ∧
    ∃ d, (run_csv_etl "T" "in.csv" (some [["ImageID", "X"], ["a", "b"], [" "], []])
        (some "d/o.csv") none).1 = .ok d ∧
      d.statistics = some
        { initial_count := ([["a", "b"], [" "], []] : List Row).length
          transformed_count := (([["a", "b"], [" "], []] : List Row).filter (fun row =>
            decide ((["ImageID", "X"] : Row).indexOf "ImageID" < row.length) &&
            !(pyStrip (row.getD ((["ImageID", "X"] : Row).indexOf "ImageID") "") == ""))).length
          filtered_count := (([["a", "b"], [" "], []] : List Row).filter (fun row =>
            !(decide ((["ImageID", "X"] : Row).indexOf "ImageID" < row.length) &&
              !(pyStrip (row.getD ((["ImageID", "X"] : Row).indexOf "ImageID") "") == "")))).length
          validated_count := none } :=
  ⟨by decide, by decide,
    C1_accept_iff_keyfield_present "T" "in.csv" ["ImageID", "X"]
      [["a", "b"], [" "], []] (some "d/o.csv") (by decide) (by decide)⟩

/-- C2: every statistics block `run_csv_etl` returns satisfies
`initial_count = transformed_count + filtered_count`. -/
theorem C2_counts_partition (now p : String) (content : Option (List Row))
    (out : Option String) (exc : Option String) (d : RunDict) (s : Stats)
    (hrun : (run_csv_etl now p content out exc).1 = .ok d)
    (hstat : d.statistics = some s) :
    s.initial_count = s.transformed_count + s.filtered_count := by
  rcases run_csv_etl_dict_cases now p content out exc d hrun with ⟨e, rfl⟩ | ⟨h, r, _, rfl⟩
  · simp [failDict] at hstat
  · simp only [csvSuccessDict, Option.some.injEq] at hstat
    subst hstat
    exact (length_filter_add_length_filter_neg _ _).symm

/-- C2 witness: the theorem applied to a concrete run. -/
theorem C2_counts_partition_witness :
    (run_csv_etl "T" "in.csv" (some [["ImageID"], ["a"], [""]]) (some "d/o.csv")
        none).1 =
      .ok (csvSuccessDict "T" ["ImageID"] [["a"], [""]] "d/o.csv") ∧
    (csvSuccessDict "T" ["ImageID"] [["a"], [""]] "d/o.csv").statistics =
      some { initial_count := 2, transformed_count := 1, filtered_count := 1,
             validated_count := none } ∧
    (2 : Nat) = 1 + 1 :=
  ⟨by rfl, by decide,
    C2_counts_partition "T" "in.csv" (some [["ImageID"], ["a"], [""]])
      (some "d/o.csv") none (csvSuccessDict "T" ["ImageID"] [["a"], [""]] "d/o.csv")
      { initial_count := 2, transformed_count := 1, filtered_count := 1,
        validated_count := none } (by rfl) (by decide)⟩

/-- C3 counterexample: on a header without `ImageID` the run does fail
with the schema error, but the output file for the run is *not* empty —
the header row was already written (line 67) before the schema check
(line 70), so "zero records written, including no header row" is false. -/
theorem C3_cex_header_written_on_schema_error :
    run_csv_etl "20250101" "data/labels.csv" (some [["A", "B"]])
        (some "d/out.csv") none =
      (.ok (failDict "CSV file does not contain an 'ImageID' column" "20250101"),
       .wrote "d/out.csv" [["A", "B"]]) ∧
    (OutputEffect.wrote "d/out.csv" [["A", "B"]]) ≠
      (OutputEffect.wrote "d/out.csv" []) := by
  exact ⟨rfl, by decide⟩

/-- C3 as amended: when the header lacks `ImageID`, `run_csv_etl` fails
with the schema error and writes no data row — but the output file exists
and contains exactly the header row, because the header is written before
the schema check. -/
theorem C3_amended_schema_error_header_only (now p : String) (header : Row)
    (rows : List Row) (out : Option String)
    (hdr : header.contains "ImageID" = false)
    (hout : makedirsOk (csvOutDir now out) = true) :
    run_csv_etl now p (some (header :: rows)) out none =
      (.ok (failDict "CSV file does not contain an 'ImageID' column" now),
       .wrote (resolveCsvOutput now out) [header]) := by
  have hdr' : "ImageID" ∉ header := by simpa using hdr
  unfold run_csv_etl
  simp [hout, hdr']

/-- C3 witness: the amended theorem applied to a concrete input. -/
theorem C3_amended_schema_error_header_only_witness :
    (["A", "B"] : Row).contains "ImageID" = false ∧
    makedirsOk (csvOutDir "T" (some "d/out.csv")) = true ∧
    run_csv_etl "T" "in.csv" (some [["A", "B"], ["x", "y"]]) (some "d/out.csv")
        none =
      (.ok (failDict "CSV file does not contain an 'ImageID' column" "T"),
       .wrote (resolveCsvOutput "T" (some "d/out.csv")) [["A", "B"]]) :=
  ⟨by decide, by decide,
    C3_amended_schema_error_header_only "T" "in.csv" ["A", "B"] [["x", "y"]]
      (some "d/out.csv") (by decide) (by decide)⟩

/-- C4: on a successful run the sample is exactly the first
`min 5 transformed_count` accepted rows, in arrival order, each
re-expressed as a header-keyed mapping padded with `""` beyond the row's
length, and its length is `min 5 transformed_count`. -/
theorem C4_sample_first_accepted (now p : String) (header : Row)
    (rows : List Row) (out : Option String)
    (hdr : header.contains "ImageID" = true)
    (hout : makedirsOk (csvOutDir now out) = true) :
    ∃ d s, (run_csv_etl now p (some (header :: rows)) out none).1 = .ok d ∧
      d.statistics = some s ∧
      d.sample_rows = some
        (((rows.filter (accepts (header.indexOf "ImageID"))).take
            (min 5 s.transformed_count)).map
          (fun row => header.enum.map (fun q => (q.2, row.getD q.1 "")))) ∧
      (d.sample_rows.getD []).length = min 5 s.transformed_count := by
  rw [run_csv_etl_ok now p header rows out hdr hout]
  refine ⟨_, _, rfl, rfl, ?_, ?_⟩
  · have htake :
        (rows.filter (accepts (header.indexOf "ImageID"))).take
            (min 5 (rows.filter (accepts (header.indexOf "ImageID"))).length) =
          (rows.filter (accepts (header.indexOf "ImageID"))).take 5 :=
      List.take_eq_take.mpr (by omega)
    simp only [csvSuccessDict]
    rw [htake]
    rfl
  · simp [csvSuccessDict, List.length_take]

/-- C4 witness: the theorem applied to a concrete input. -/
theorem C4_sample_first_accepted_witness :
    (["ImageID", "L"] : Row).contains "ImageID" = true ∧
    makedirsOk (csvOutDir "T" (some "d/o.csv")) = true ∧
    ∃ d s, (run_csv_etl "T" "in.csv"
        (some [["ImageID", "L"], ["a"], [""], ["b", "c"]]) (some "d/o.csv")
        none).1 = .ok d ∧
      d.statistics = some s ∧
      d.sample_rows = some
        (((([["a"], [""], ["b", "c"]] : List Row).filter
              (accepts ((["ImageID", "L"] : Row).indexOf "ImageID"))).take
            (min 5 s.transformed_count)).map
          (fun row =>
            (["ImageID", "L"] : Row).enum.map (fun q => (q.2, row.getD q.1 "")))) ∧
      (d.sample_rows.getD []).length = min 5 s.transformed_count :=
  ⟨by decide, by decide,
    C4_sample_first_accepted "T" "in.csv" ["ImageID", "L"]
      [["a"], [""], ["b", "c"]] (some "d/o.csv") (by decide) (by decide)⟩

/-- C5: the spec's concrete scenario: header `ImageID,LabelName,Confidence`
with rows `["","cat","0.9"]`, `["i2","dog","0.8"]`, `["i3","","0.5"]` gives
`initial_count = 3`, `transformed_count = 2`, `filtered_count = 1` and the
two accepted rows as the sample, in order. -/
theorem C5_concrete_scenario :
    run_csv_etl "T" "data/labels.csv"
      (some [["ImageID", "LabelName", "Confidence"],
             ["", "cat", "0.9"], ["i2", "dog", "0.8"], ["i3", "", "0.5"]])
      (some "d/out.csv") none =
      (.ok { success := true
             timestamp := "T"
             error := none
             statistics := some { initial_count := 3, transformed_count := 2,
                                  filtered_count := 1, validated_count := none }
             sample_rows := some
               [[("ImageID", "i2"), ("LabelName", "dog"), ("Confidence", "0.8")],
                [("ImageID", "i3"), ("LabelName", ""), ("Confidence", "0.5")]]
             output_path := some "d/out.csv" },
       .wrote "d/out.csv"
         [["ImageID", "LabelName", "Confidence"],
          ["i2", "dog", "0.8"], ["i3", "", "0.5"]]) := by
  rfl

/-- C6: on a missing input all three runners fail with a not-found error
before creating any output directory or file: the csv and pandas runners
return the failure dictionary, `ingest` raises `FileNotFoundError`, and
the reified output effect is `noneCreated` in each case. -/
theorem C6_missing_input_no_output (now p : String) (out : Option String)
    (exc : Option String) :
    run_csv_etl now p none out exc =
      (.ok (failDict ("Input file " ++ p ++ " does not exist") now),
       .noneCreated) ∧
    run_pandas_etl now p none out =
      (.ok (failDict ("Input file " ++ p ++ " does not exist") now),
       .noneCreated) ∧
    ingest p none out =
      (.error ("The input file " ++ p ++ " does not exist."), .noneCreated) :=
  ⟨rfl, rfl, rfl⟩

/-- C7: whenever `run_csv_etl` succeeds with `transformed_count ≥ 1`, the
written output starts with exactly the input header (same columns, same
order), every data row has a non-empty (after stripping) value at the
`ImageID` index, and at least one data row is present. -/
theorem C7_output_validates (now p : String) (header : Row) (rows : List Row)
    (out : Option String) (hdr : header.contains "ImageID" = true)
    (hout : makedirsOk (csvOutDir now out) = true) (d : RunDict) (s : Stats)
    (eff : OutputEffect)
    (hrun : run_csv_etl now p (some (header :: rows)) out none = (.ok d, eff))
    (hstat : d.statistics = some s) (h1 : 1 ≤ s.transformed_count) :
    ∃ dataRows : List Row,
      eff = .wrote (resolveCsvOutput now out) (header :: dataRows) ∧
      1 ≤ dataRows.length ∧
      ∀ r ∈ dataRows, header.indexOf "ImageID" < r.length ∧
        pyStrip (r.getD (header.indexOf "ImageID") "") ≠ "" := by
  rw [run_csv_etl_ok now p header rows out hdr hout] at hrun
  have hd : d = csvSuccessDict now header rows (resolveCsvOutput now out) :=
    by simpa using (congrArg Prod.fst hrun).symm
  have he : eff = .wrote (resolveCsvOutput now out)
      (header :: rows.filter (accepts (header.indexOf "ImageID"))) :=
    by simpa using (congrArg Prod.snd hrun).symm
  refine ⟨rows.filter (accepts (header.indexOf "ImageID")), he, ?_, ?_⟩
  · subst hd
    simp only [csvSuccessDict, Option.some.injEq] at hstat
    subst hstat
    exact h1
  · intro r hr
    have hacc : accepts (header.indexOf "ImageID") r = true :=
      (List.mem_filter.mp hr).2
    simp only [accepts, Bool.and_eq_true, decide_eq_true_eq, Bool.not_eq_true',
      beq_eq_false_iff_ne, ne_eq] at hacc
    exact hacc

/-- C7 witness: the theorem applied to a concrete run with one accepted
and one rejected row. -/
theorem C7_output_validates_witness :
    (["ImageID"] : Row).contains "ImageID" = true ∧
    makedirsOk (csvOutDir "T" (some "d/o.csv")) = true ∧
    (csvSuccessDict "T" ["ImageID"] [["a"], [" "]] "d/o.csv").statistics =
      some { initial_count := 2, transformed_count := 1, filtered_count := 1,
             validated_count := none } ∧
    ∃ dataRows : List Row,
      (OutputEffect.wrote "d/o.csv" (["ImageID"] :: [["a"]])) =
        .wrote (resolveCsvOutput "T" (some "d/o.csv"))
          (["ImageID"] :: dataRows) ∧
      1 ≤ dataRows.length ∧
      ∀ r ∈ dataRows, (["ImageID"] : Row).indexOf "ImageID" < r.length ∧
        pyStrip (r.getD ((["ImageID"] : Row).indexOf "ImageID") "") ≠ "" :=
  ⟨by decide, by decide, by decide,
    C7_output_validates "T" "in.csv" ["ImageID"] [["a"], [" "]]
      (some "d/o.csv") (by decide) (by decide)
      (csvSuccessDict "T" ["ImageID"] [["a"], [" "]] "d/o.csv")
      { initial_count := 2, transformed_count := 1, filtered_count := 1,
        validated_count := none }
      (.wrote "d/o.csv" (["ImageID"] :: [["a"]])) (by rfl) (by decide)
      (by decide)⟩

/-- C8 counterexample: with an existing input but an output path with no
directory component, `os.makedirs(os.path.dirname(output_path))` — which
runs *before* the `try` block — raises, so `run_csv_etl` does not return a
result dictionary: the claim that it never raises for any input is false. -/
theorem C8_cex_makedirs_uncaught :
    (run_csv_etl "T" "in.csv" (some [["ImageID"], ["a"]]) (some "out.csv")
        none).1 = .error makedirsError := by
  rfl

/-- C8 as amended: provided the output-directory creation succeeds (an
explicit output path has a directory component, or the default is used),
`run_csv_etl` always returns a dictionary — for a missing input, a header
without `ImageID`, and any exception inside the `try` block (reading,
writing, copying) — and every failure dictionary has exactly the shape
`{success: false, error, timestamp}`: an error string is present and
`statistics`, `sample_rows` and `output_path` are absent. -/
theorem C8_amended_no_raise_failure_shape (now p : String)
    (content : Option (List Row)) (out : Option String) (exc : Option String)
    (hout : makedirsOk (csvOutDir now out) = true) :
    (∃ d, (run_csv_etl now p content out exc).1 = .ok d) ∧
    (∀ d, (run_csv_etl now p content out exc).1 = .ok d → d.success = false →
      (∃ e, d.error = some e) ∧ d.statistics = none ∧ d.sample_rows = none ∧
        d.output_path = none) := by
  refine ⟨run_csv_etl_total now p content out exc hout, ?_⟩
  intro d hd hfail
  rcases run_csv_etl_dict_cases now p content out exc d hd with
    ⟨e, rfl⟩ | ⟨h, r, _, rfl⟩
  · exact ⟨⟨e, rfl⟩, rfl, rfl, rfl⟩
  · exact absurd hfail (by simp [csvSuccessDict])

/-- C8 witness: the amended theorem applied to a run whose input is
missing (exception oracle irrelevant there). -/
theorem C8_amended_no_raise_failure_shape_witness :
    makedirsOk (csvOutDir "T" (some "d/o.csv")) = true ∧
    ((∃ d, (run_csv_etl "T" "absent.csv" none (some "d/o.csv") none).1 =
        .ok d) ∧
     (∀ d, (run_csv_etl "T" "absent.csv" none (some "d/o.csv") none).1 =
          .ok d → d.success = false →
        (∃ e, d.error = some e) ∧ d.statistics = none ∧ d.sample_rows = none ∧
          d.output_path = none)) :=
  ⟨by decide,
    C8_amended_no_raise_failure_shape "T" "absent.csv" none (some "d/o.csv")
      none (by decide)⟩

/-- A "canonical" key cell for cross-runner comparison: if it strips to
empty it is the empty string, and it is not a non-empty pandas NA token.
The cells excluded here (whitespace-only non-empty values, NA tokens such
as `"NA"`) are exactly where the three runners' filters can disagree. -/
def cellCanonical (idx : Nat) (r : Row) : Bool :=
  (!(pyStrip (r.getD idx "") == "") || (r.getD idx "") == "") &&
  (!(pandasNaTokens.contains (r.getD idx "")) || (r.getD idx "") == "")

/-- On canonical cells the csv acceptance test coincides with pandas'
`dropna` keep-test. -/
theorem accepts_eq_pandas_keep (idx : Nat) (r : Row)
    (h : cellCanonical idx r = true) :
    accepts idx r = !(pandasIsNull idx r) := by
  simp only [cellCanonical, Bool.and_eq_true, Bool.or_eq_true,
    Bool.not_eq_true', beq_eq_false_iff_ne, beq_iff_eq, ne_eq] at h
  obtain ⟨h1, h2⟩ := h
  unfold accepts pandasIsNull
  cases hq : r.get? idx with
  | none =>
    have hlen : r.length ≤ idx := List.get?_eq_none.mp hq
    simp [Nat.not_lt.mpr hlen]
  | some v =>
    have hlt : idx < r.length := by
      by_contra hh
      rw [List.get?_eq_none.mpr (Nat.le_of_not_lt hh)] at hq
      cases hq
    have hgd : r.getD idx "" = v := by
      rw [List.getD_eq_get?, hq]
      rfl
    rw [hgd] at h1 h2 ⊢
    by_cases hv : pyStrip v = ""
    · have hv0 : v = "" := by
        rcases h1 with h1 | h1
        · exact absurd hv h1
        · exact h1
      subst hv0
      simp [hlt]
      decide
    · have hne : v ≠ "" := by
        intro hv0
        subst hv0
        exact hv rfl
      have hnotna : pandasNaTokens.contains v = false := by
        rcases h2 with h2 | h2
        · exact h2
        · exact absurd h2 hne
      have hmem : v ∉ pandasNaTokens := by simpa using hnotna
      simp [hlt, hv, hmem]

/-- On canonical cells the csv acceptance test coincides with Spark's
`isNotNull` keep-test. -/
theorem accepts_eq_spark_keep (idx : Nat) (r : Row)
    (h : cellCanonical idx r = true) :
    accepts idx r = !(sparkIsNull idx r) := by
  simp only [cellCanonical, Bool.and_eq_true, Bool.or_eq_true,
    Bool.not_eq_true', beq_eq_false_iff_ne, beq_iff_eq, ne_eq] at h
  obtain ⟨h1, _⟩ := h
  unfold accepts sparkIsNull
  cases hq : r.get? idx with
  | none =>
    have hlen : r.length ≤ idx := List.get?_eq_none.mp hq
    simp [Nat.not_lt.mpr hlen]
  | some v =>
    have hlt : idx < r.length := by
      by_contra hh
      rw [List.get?_eq_none.mpr (Nat.le_of_not_lt hh)] at hq
      cases hq
    have hgd : r.getD idx "" = v := by
      rw [List.getD_eq_get?, hq]
      rfl
    rw [hgd] at h1 ⊢
    by_cases hv : pyStrip v = ""
    · have hv0 : v = "" := by
        rcases h1 with h1 | h1
        · exact absurd hv h1
        · exact h1
      subst hv0
      simp [hlt]
      decide
    · have hne : v ≠ "" := by
        intro hv0
        subst hv0
        exact hv rfl
      simp [hlt, hv, hne]

/-- On a table whose header is non-empty and whose data rows are all
non-blank, the blank-line skip of the pandas and Spark readers is the
identity. -/
theorem filter_nonblank_eq_self (header : Row) (rows : List Row)
    (hh : header ≠ []) (hnb : ∀ r ∈ rows, r ≠ []) :
    (header :: rows).filter (fun r => !(r.isEmpty)) = header :: rows := by
  refine List.filter_eq_self.mpr ?_
  intro r hr
  have hne : r ≠ [] := by
    rcases List.mem_cons.mp hr with h | h
    · rw [h]
      exact hh
    · exact hnb r h
  cases r with
  | nil => exact absurd rfl hne
  | cons a t => rfl

/-- A header that contains `"ImageID"` is non-empty. -/
theorem header_ne_nil_of_contains (header : Row)
    (hdr : header.contains "ImageID" = true) : header ≠ [] := by
  intro h
  subst h
  exact absurd hdr (by decide)

/-- Characterization of a successful pandas run with `ImageID` in the
header, no blank row, no over-wide row and a creatable output directory. -/
theorem run_pandas_etl_ok (now p : String) (header : Row) (rows : List Row)
    (out : Option String) (hdr : header.contains "ImageID" = true)
    (hout : makedirsOk (dirname (resolvePandasOutput now out)) = true)
    (hnb : ∀ r ∈ rows, r ≠ [])
    (hwide : rows.any (fun r => decide (header.length < r.length)) = false) :
    run_pandas_etl now p (some (header :: rows)) out =
      (.ok { success := true
             timestamp := now
             error := none
             statistics := some
               { initial_count := rows.length
                 transformed_count := (rows.filter
                   (fun r => !(pandasIsNull (header.indexOf "ImageID") r))).length
                 filtered_count := rows.length - (rows.filter
                   (fun r => !(pandasIsNull (header.indexOf "ImageID") r))).length
                 validated_count := some ((rows.filter
                   (fun r => !(pandasIsNull (header.indexOf "ImageID") r))).length) }
             sample_rows := some (((rows.filter
                 (fun r => !(pandasIsNull (header.indexOf "ImageID") r))).take 5).map
               (sampleRow header))
             output_path := some (resolvePandasOutput now out) },
       .wrote (resolvePandasOutput now out)
         (header :: rows.filter
           (fun r => !(pandasIsNull (header.indexOf "ImageID") r)))) := by
  have hdr' : "ImageID" ∈ header := by simpa using hdr
  have hfil := filter_nonblank_eq_self header rows
    (header_ne_nil_of_contains header hdr) hnb
  unfold run_pandas_etl
  simp [hout, hwide, hdr', hfil]

/-- Characterization of a successful Spark ingest with `ImageID` in the
header and a creatable output directory. -/
theorem ingest_ok (p : String) (header : Row) (rows : List Row)
    (out : Option String) (hdr : header.contains "ImageID" = true)
    (hout : makedirsOk (dirname (resolveIngestOutput out)) = true)
    (hnb : ∀ r ∈ rows, r ≠ []) :
    ingest p (some (header :: rows)) out =
      (.ok (resolveIngestOutput out),
       .wrote (resolveIngestOutput out)
         (header :: rows.filter
           (fun r => !(sparkIsNull (header.indexOf "ImageID") r)))) := by
  have hdr' : "ImageID" ∈ header := by simpa using hdr
  have hfil := filter_nonblank_eq_self header rows
    (header_ne_nil_of_contains header hdr) hnb
  unfold ingest
  simp [hout, hdr', hfil]

/-- C9 counterexample: the runners are not equivalent, twice over.  On
the table with header `[ImageID]` and the single data row `[" "]`
(whitespace-only ImageID), `run_csv_etl` rejects the row while
`run_pandas_etl` and `ingest` both keep it, so the kept-row sets differ
and the claim that all three reject whitespace-only values is false.  And
on the table whose single data line is blank (the row `[]`),
`run_csv_etl` reports `initial_count = 1, filtered_count = 1` while
`run_pandas_etl` skips the blank line before counting and reports
`initial_count = 0, filtered_count = 0`, so the before/after counts
differ as well. -/
theorem C9_cex_whitespace_row :
    (run_csv_etl "T" "in.csv" (some [["ImageID"], [" "]]) (some "d/o.csv")
        none).2 = .wrote "d/o.csv" [["ImageID"]] ∧
    (run_pandas_etl "T" "in.csv" (some [["ImageID"], [" "]])
        (some "d/o.parquet")).2 = .wrote "d/o.parquet" [["ImageID"], [" "]] ∧
    (ingest "in.csv" (some [["ImageID"], [" "]]) (some "d/o")).2 =
      .wrote "d/o" [["ImageID"], [" "]] ∧
    ([["ImageID"]] : List Row) ≠ [["ImageID"], [" "]] ∧
    run_csv_etl "T" "in.csv" (some [["ImageID"], []]) (some "d/o.csv") none =
      (.ok { success := true
             timestamp := "T"
             error := none
             statistics := some { initial_count := 1, transformed_count := 0,
                                  filtered_count := 1, validated_count := none }
             sample_rows := some []
             output_path := some "d/o.csv" },
       .wrote "d/o.csv" [["ImageID"]]) ∧
    run_pandas_etl "T" "in.csv" (some [["ImageID"], []]) (some "d/o.parquet") =
      (.ok { success := true
             timestamp := "T"
             error := none
             statistics := some { initial_count := 0, transformed_count := 0,
                                  filtered_count := 0, validated_count := some 0 }
             sample_rows := some []
             output_path := some "d/o.parquet" },
       .wrote "d/o.parquet" [["ImageID"]]) ∧
    (1 : Nat) ≠ 0 :=
  ⟨rfl, rfl, rfl, by decide, rfl, rfl, by decide⟩

/-- C9 as amended: the three runners implement the same filter contract —
identical kept rows and identical before/after counts — on tables without
blank rows whose rows are no wider than the header and whose key cells
are canonical (empty, or neither whitespace-only nor a pandas NA token).
Outside that domain they disagree: a whitespace-only ImageID is rejected
by the csv runner but kept by the pandas and Spark runners, and a blank
line is counted (initial and filtered) by the csv runner but skipped
uncounted by the pandas and Spark readers. -/
theorem C9_amended_runners_agree (now p : String) (header : Row)
    (rows : List Row) (outc outp outi : Option String)
    (hdr : header.contains "ImageID" = true)
    (hc : makedirsOk (csvOutDir now outc) = true)
    (hp : makedirsOk (dirname (resolvePandasOutput now outp)) = true)
    (hi : makedirsOk (dirname (resolveIngestOutput outi)) = true)
    (hblank : ∀ r ∈ rows, r ≠ [])
    (hwide : ∀ r ∈ rows, r.length ≤ header.length)
    (hcan : ∀ r ∈ rows, cellCanonical (header.indexOf "ImageID") r = true) :
    ∃ kept : List Row,
      kept = rows.filter (accepts (header.indexOf "ImageID")) ∧
      (run_csv_etl now p (some (header :: rows)) outc none).2 =
        .wrote (resolveCsvOutput now outc) (header :: kept) ∧
      (run_pandas_etl now p (some (header :: rows)) outp).2 =
        .wrote (resolvePandasOutput now outp) (header :: kept) ∧
      (ingest p (some (header :: rows)) outi).2 =
        .wrote (resolveIngestOutput outi) (header :: kept) ∧
      (∃ d, (run_csv_etl now p (some (header :: rows)) outc none).1 = .ok d ∧
        d.statistics = some
          { initial_count := rows.length
            transformed_count := kept.length
            filtered_count := rows.length - kept.length
            validated_count := none }) ∧
      (∃ d, (run_pandas_etl now p (some (header :: rows)) outp).1 = .ok d ∧
        d.statistics = some
          { initial_count := rows.length
            transformed_count := kept.length
            filtered_count := rows.length - kept.length
            validated_count := some kept.length }) := by
  have hpand : rows.filter
      (fun r => !(pandasIsNull (header.indexOf "ImageID") r)) =
      rows.filter (accepts (header.indexOf "ImageID")) :=
    (List.filter_congr (fun r hr =>
      (accepts_eq_pandas_keep (header.indexOf "ImageID") r (hcan r hr)))).symm
  have hspark : rows.filter
      (fun r => !(sparkIsNull (header.indexOf "ImageID") r)) =
      rows.filter (accepts (header.indexOf "ImageID")) :=
    (List.filter_congr (fun r hr =>
      (accepts_eq_spark_keep (header.indexOf "ImageID") r (hcan r hr)))).symm
  have hany : rows.any (fun r => decide (header.length < r.length)) = false := by
    simp only [List.any_eq_false, decide_eq_true_eq]
    intro r hr
    exact Nat.not_lt.mpr (hwide r hr)
  have hflen : (rows.filter
        (fun r => !(accepts (header.indexOf "ImageID") r))).length =
      rows.length - (rows.filter (accepts (header.indexOf "ImageID"))).length := by
    have := length_filter_add_length_filter_neg
      (accepts (header.indexOf "ImageID")) rows
    omega
  refine ⟨rows.filter (accepts (header.indexOf "ImageID")), rfl, ?_, ?_, ?_, ?_, ?_⟩
  · rw [run_csv_etl_ok now p header rows outc hdr hc]
  · rw [run_pandas_etl_ok now p header rows outp hdr hp hblank hany, hpand]
  · rw [ingest_ok p header rows outi hdr hi hblank, hspark]
  · refine ⟨_, by rw [run_csv_etl_ok now p header rows outc hdr hc], ?_⟩
    simp only [csvSuccessDict, Option.some.injEq, Stats.mk.injEq]
    refine ⟨by trivial, by trivial, hflen, by trivial⟩
  · refine ⟨_, by rw [run_pandas_etl_ok now p header rows outp hdr hp hblank hany], ?_⟩
    simp [hpand]

/-- C9 witness: the amended theorem applied to a concrete two-row table
with one empty and one ordinary key cell. -/
theorem C9_amended_runners_agree_witness :
    (["ImageID"] : Row).contains "ImageID" = true ∧
    makedirsOk (csvOutDir "T" (some "d/o.csv")) = true ∧
    makedirsOk (dirname (resolvePandasOutput "T" (some "d/o.parquet"))) = true ∧
    makedirsOk (dirname (resolveIngestOutput (some "d/o"))) = true ∧
    (∀ r ∈ ([["a"], [""]] : List Row), r ≠ []) ∧
    (∀ r ∈ ([["a"], [""]] : List Row), r.length ≤ (["ImageID"] : Row).length) ∧
    (∀ r ∈ ([["a"], [""]] : List Row),
      cellCanonical ((["ImageID"] : Row).indexOf "ImageID") r = true) ∧
    ∃ kept : List Row,
      kept = ([["a"], [""]] : List Row).filter
        (accepts ((["ImageID"] : Row).indexOf "ImageID")) ∧
      (run_csv_etl "T" "in.csv" (some [["ImageID"], ["a"], [""]])
          (some "d/o.csv") none).2 =
        .wrote (resolveCsvOutput "T" (some "d/o.csv")) (["ImageID"] :: kept) ∧
      (run_pandas_etl "T" "in.csv" (some [["ImageID"], ["a"], [""]])
          (some "d/o.parquet")).2 =
        .wrote (resolvePandasOutput "T" (some "d/o.parquet"))
          (["ImageID"] :: kept) ∧
      (ingest "in.csv" (some [["ImageID"], ["a"], [""]]) (some "d/o")).2 =
        .wrote (resolveIngestOutput (some "d/o")) (["ImageID"] :: kept) ∧
      (∃ d, (run_csv_etl "T" "in.csv" (some [["ImageID"], ["a"], [""]])
            (some "d/o.csv") none).1 = .ok d ∧
        d.statistics = some
          { initial_count := ([["a"], [""]] : List Row).length
            transformed_count := kept.length
            filtered_count := ([["a"], [""]] : List Row).length - kept.length
            validated_count := none }) ∧
      (∃ d, (run_pandas_etl "T" "in.csv" (some [["ImageID"], ["a"], [""]])
            (some "d/o.parquet")).1 = .ok d ∧
        d.statistics = some
          { initial_count := ([["a"], [""]] : List Row).length
            transformed_count := kept.length
            filtered_count := ([["a"], [""]] : List Row).length - kept.length
            validated_count := some kept.length }) :=
  ⟨by decide, by decide, by decide, by decide, by decide, by decide, by decide,
    C9_amended_runners_agree "T" "in.csv" ["ImageID"] [["a"], [""]]
      (some "d/o.csv") (some "d/o.parquet") (some "d/o") (by decide)
      (by decide) (by decide) (by decide) (by decide) (by decide)
      (by decide)⟩

/-- C10: the statistics and the sample of `run_csv_etl` are a function of
the input file's contents alone: two runs over the same contents, with any
timestamps, input paths and (creatable) output paths, return dictionaries
with equal `statistics` and equal `sample_rows`. -/
theorem C10_stats_deterministic (now now' p p' : String)
    (content : List Row) (out out' : Option String)
    (h : makedirsOk (csvOutDir now out) = true)
    (h' : makedirsOk (csvOutDir now' out') = true) :
    ∃ d d', (run_csv_etl now p (some content) out none).1 = .ok d ∧
      (run_csv_etl now' p' (some content) out' none).1 = .ok d' ∧
      d.statistics = d'.statistics ∧ d.sample_rows = d'.sample_rows := by
  cases content with
  | nil =>
    exact ⟨failDict "" now, failDict "" now',
      by simp [run_csv_etl, h], by simp [run_csv_etl, h'], rfl, rfl⟩
  | cons header rows =>
    by_cases hdr : "ImageID" ∈ header
    · have hdrb : header.contains "ImageID" = true := by simpa using hdr
      exact ⟨csvSuccessDict now header rows (resolveCsvOutput now out),
        csvSuccessDict now' header rows (resolveCsvOutput now' out'),
        by rw [run_csv_etl_ok now p header rows out hdrb h],
        by rw [run_csv_etl_ok now' p' header rows out' hdrb h'],
        rfl, rfl⟩
    · exact ⟨failDict "CSV file does not contain an 'ImageID' column" now,
        failDict "CSV file does not contain an 'ImageID' column" now',
        by simp [run_csv_etl, h, hdr], by simp [run_csv_etl, h', hdr],
        rfl, rfl⟩

/-- C10 witness: two runs of the same contents at different timestamps and
output paths. -/
theorem C10_stats_deterministic_witness :
    makedirsOk (csvOutDir "T1" (some "d/o.csv")) = true ∧
    makedirsOk (csvOutDir "T2" none) = true ∧
    ∃ d d', (run_csv_etl "T1" "a.csv" (some [["ImageID"], ["a"], [""]])
        (some "d/o.csv") none).1 = .ok d ∧
      (run_csv_etl "T2" "b.csv" (some [["ImageID"], ["a"], [""]]) none
        none).1 = .ok d' ∧
      d.statistics = d'.statistics ∧ d.sample_rows = d'.sample_rows :=
  ⟨by decide, by decide,
    C10_stats_deterministic "T1" "T2" "a.csv" "b.csv"
      [["ImageID"], ["a"], [""]] (some "d/o.csv") none (by decide)
      (by decide)⟩

end SparkETL
